import Mathlib

/-!
Verification of the product-recommendation engine in `src/products.js`
(`Products.fetchRecommended`) against its natural-language specification.

The JavaScript code is shallowly embedded:

* JS values that can appear in a need-profile are modelled by `JSVal`
  (numbers, booleans, `undefined`, `null`); a profile is a partial map
  from property names to values (`none` = the key is absent, so
  `hasOwnProperty` is `Option.isSome`).
* JS loose equality `x == 1` and `x == true` (ToNumber coercions) is
  modelled by `jsEqNum` / `jsEqTrue`.
* The JS relational comparison `array > 0` on line 39 of the source
  (`chosenSkinNeeds > 0`) coerces the array to a string (`join(",")`) and
  that string to a number (`NaN` when non-numeric, `0` when empty); a
  comparison against `NaN` is false.  This is modelled by
  `jsArrayGtZero`, with the string-to-number coercion `jsToNumber`.
* The catalog store (Postgres, a collaborator outside this repository)
  is modelled by a table of rows plus `runCategoryQuery`, which gives
  the generated per-category SQL its standard meaning: filter by
  `"type" = $1 AND "safety" >= '50'` and the generated skin-type clause,
  order by the generated ranking expression ascending, take 3.
  `GROUP BY "id"` over rows with unique ids is the identity and is the
  documented no-op safeguard, so it is not given a separate step.
* `Promise.all` over the five per-category queries is `promiseAll`;
  a store failure on a category is modelled by the `dbFails` oracle.
-/

inductive JSVal
  | num (n : Int)
  | bool (b : Bool)
  | undef
  | null
deriving DecidableEq

/-- A JS object used as a need-profile: a partial map from property
names to values.  `none` means the key is absent
(`hasOwnProperty` false); `some v` means the key is present with
value `v` (a present key whose value is `undefined` is
`some JSVal.undef`). -/
def Profile := String → Option JSVal

/-- JS property access `needs[k]`: an absent key reads as `undefined`. -/
def getProp (p : Profile) (k : String) : JSVal :=
  (p k).getD JSVal.undef

/-- JS loose equality `v == n` for a number literal `n`: numbers compare
numerically, booleans are coerced by ToNumber (`true ↦ 1`, `false ↦ 0`),
`undefined` and `null` are not loosely equal to any number. -/
def jsEqNum : JSVal → Int → Bool
  | JSVal.num m, n => m == n
  | JSVal.bool b, n => (if b then (1 : Int) else 0) == n
  | JSVal.undef, _ => false
  | JSVal.null, _ => false

/-- JS loose equality `v == true`: the boolean operand is coerced by
ToNumber to `1`, so this is exactly `v == 1`. -/
def jsEqTrue (v : JSVal) : Bool :=
  jsEqNum v 1

def decDigit (c : Char) : Option Nat :=
  if c.isDigit then some (c.toNat - 48) else none

def parseNatDigits (l : List Char) : Option Nat :=
  if l.isEmpty then none
  else l.foldl (fun acc c =>
    match acc, decDigit c with
    | some n, some d => some (10 * n + d)
    | _, _ => none) (some 0)

def trimChars (l : List Char) : List Char :=
  ((l.dropWhile (fun c => c.isWhitespace)).reverse.dropWhile
    (fun c => c.isWhitespace)).reverse

/-- JS ToNumber on a string (restricted to the integral strings relevant
here): the whitespace-trimmed empty string is `0`, an optionally signed
decimal numeral is its value, anything else is NaN (`none`). -/
def jsToNumber (s : String) : Option Int :=
  match trimChars s.data with
  | [] => some 0
  | '-' :: rest => (parseNatDigits rest).map (fun n => -(n : Int))
  | '+' :: rest => (parseNatDigits rest).map (fun n => (n : Int))
  | l => (parseNatDigits l).map (fun n => (n : Int))

/-- JS relational comparison `arr > 0` for an array of strings, as on
line 39 of `src/products.js`: the array is coerced to the string
`arr.join(",")`, that string to a number via ToNumber, and the
comparison is false when that number is NaN. -/
def jsArrayGtZero (l : List String) : Bool :=
  match jsToNumber (String.intercalate "," l) with
  | some n => decide (n > 0)
  | none => false

/-- The twelve required need-profile keys (`src/products.js` lines 12-14). -/
def requiredFields : List String :=
  ["cleanser", "toner", "serum", "moisturizer", "sunscreen",
   "oily", "dry", "sensitive",
   "acne_fighting", "anti_aging", "brightening", "uv"]

/-- The three skin-type flags (`src/products.js` line 31). -/
def skintypeFields : List String :=
  ["oily", "dry", "sensitive"]

/-- The four functionality-need flags (`src/products.js` line 37). -/
def skinNeedFields : List String :=
  ["acne_fighting", "anti_aging", "brightening", "uv"]

/-- The five fixed categories (`src/products.js` line 44). -/
def categories : List String :=
  ["cleanser", "toner", "serum", "moisturizer", "sunscreen"]

/-- `var chosenSkintypes = ["oily","dry","sensitive"].filter((type) => needs[type] == 1)`. -/
def chosenSkintypes (needs : Profile) : List String :=
  skintypeFields.filter (fun t => jsEqNum (getProp needs t) 1)

/-- `chosenSkintypes.map(skintype => `"${skintype}" = 1`)`. -/
def skintypeQueryMap (needs : Profile) : List String :=
  (chosenSkintypes needs).map (fun s => "\"" ++ s ++ "\" = 1")

/-- `skintypeQueryMap.length > 0 ? "AND ("+ skintypeQueryMap.join(" OR ")+")" : ""`. -/
def skintypeQuery (needs : Profile) : String :=
  if (skintypeQueryMap needs).length > 0 then
    "AND (" ++ String.intercalate " OR " (skintypeQueryMap needs) ++ ")"
  else ""

/-- `["acne_fighting","anti_aging","brightening","uv"].filter((need) => needs[need] == 1)`. -/
def chosenSkinNeeds (needs : Profile) : List String :=
  skinNeedFields.filter (fun t => jsEqNum (getProp needs t) 1)

/-- `chosenSkinNeeds.map((need) => `"${need}"`)`. -/
def chosenSkinNeedsQuoted (needs : Profile) : List String :=
  (chosenSkinNeeds needs).map (fun s => "\"" ++ s ++ "\"")

/-- `var skinNeedsQuery = chosenSkinNeeds > 0 ? chosenSkinNeeds.join(" + ") : "0"`
(line 39).  Note that the source compares the ARRAY `chosenSkinNeeds`
to `0` (not its `.length`), which is the JS coercion modelled by
`jsArrayGtZero`. -/
def skinNeedsQueryBase (needs : Profile) : String :=
  if jsArrayGtZero (chosenSkinNeedsQuoted needs) then
    String.intercalate " + " (chosenSkinNeedsQuoted needs)
  else "0"

/-- `skinNeedsQuery += (needs.oily == true) ? ` + "comedogenic"` : ""` (line 40). -/
def skinNeedsQuery (needs : Profile) : String :=
  skinNeedsQueryBase needs ++
    (if jsEqTrue (getProp needs "oily") then " + \"comedogenic\"" else "")

/-- The per-category query text built on lines 46-52 of
`src/products.js`.  The category itself is passed as the bound
parameter `$1`, so the text is the same for all five categories. -/
def buildQuery (needs : Profile) : String :=
  "SELECT *, SUM(" ++ skinNeedsQuery needs ++ ") AS \"ranking\"  \n" ++
  "                FROM products\n" ++
  "                WHERE \"type\" = $1 AND \"safety\" >= \x2750\x27 " ++
  skintypeQuery needs ++ "\n" ++
  "                GROUP BY \"id\"\n" ++
  "                ORDER BY \"ranking\"\n" ++
  "                LIMIT 3;"

/-- A row of the `products` table: the columns the generated query
reads.  Binary flags are stored as 0/1 integers. -/
structure Row where
  id : Nat
  type : String
  safety : Int
  oily : Int
  dry : Int
  sensitive : Int
  acne_fighting : Int
  anti_aging : Int
  brightening : Int
  uv : Int
  comedogenic : Int
deriving DecidableEq

/-- The column of a row named by one of the flag identifiers
interpolated into the query text. -/
def flagCol (r : Row) : String → Int
  | "oily" => r.oily
  | "dry" => r.dry
  | "sensitive" => r.sensitive
  | "acne_fighting" => r.acne_fighting
  | "anti_aging" => r.anti_aging
  | "brightening" => r.brightening
  | "uv" => r.uv
  | "comedogenic" => r.comedogenic
  | _ => 0

/-- Value of the generated ranking expression `SUM(<skinNeedsQuery>)` at
a row (each `GROUP BY "id"` group is a single row, so the SUM is the
expression itself): the sum of the selected functionality columns when
the line-39 array comparison is truthy, else the literal `0`, plus the
`comedogenic` column when `needs.oily == true`. -/
def rowRanking (needs : Profile) (r : Row) : Int :=
  (if jsArrayGtZero (chosenSkinNeedsQuoted needs) then
    ((chosenSkinNeeds needs).map (flagCol r)).sum
  else 0) +
    (if jsEqTrue (getProp needs "oily") then r.comedogenic else 0)

/-- Truth of the generated skin-type clause at a row: vacuously true
when the clause is empty, otherwise `AND (t1 = 1 OR t2 = 1 ...)` over
the chosen skin types. -/
def rowPassesSkintype (needs : Profile) (r : Row) : Bool :=
  (chosenSkintypes needs).isEmpty ||
    (chosenSkintypes needs).any (fun t => flagCol r t == 1)

/-- The catalog store evaluating the generated query for one category
`cat` over table `store`: `WHERE "type" = $1 AND "safety" >= '50'`
plus the skin-type clause, `ORDER BY "ranking"` ascending,
`LIMIT 3`. -/
def runCategoryQuery (store : List Row) (needs : Profile) (cat : String) : List Row :=
  (List.insertionSort (fun a b => rowRanking needs a ≤ rowRanking needs b)
    (store.filter (fun r =>
      r.type == cat && decide (50 ≤ r.safety) && rowPassesSkintype needs r))).take 3

inductive FetchError
  | badRequest
  | storeError
deriving DecidableEq

/-- `Promise.all`: resolves with the list of results when every promise
resolves, rejects (with the first rejection) when any rejects. -/
def promiseAll {ε α : Type} : List (Except ε α) → Except ε (List α)
  | [] => Except.ok []
  | x :: xs =>
    match x with
    | Except.error e => Except.error e
    | Except.ok a =>
      match promiseAll xs with
      | Except.error e => Except.error e
      | Except.ok as => Except.ok (a :: as)

/-- `Products.fetchRecommended` from `src/products.js`.  `store` is the
catalog table; `dbFails cat = true` models the store rejecting that
category's query (StoreError).  Validation (lines 15-19) throws
`BadRequestError` when any required key is absent; otherwise the five
category queries run under `Promise.all` and the result object maps
each category, in declared order, to its row list. -/
def fetchRecommended (store : List Row) (dbFails : String → Bool)
    (needs : Profile) : Except FetchError (List (String × List Row)) :=
  if requiredFields.all (fun f => (needs f).isSome) then
    match promiseAll (categories.map (fun item =>
        if dbFails item then Except.error FetchError.storeError
        else Except.ok (runCategoryQuery store needs item))) with
    | Except.error e => Except.error e
    | Except.ok results => Except.ok (categories.zip results)
  else Except.error FetchError.badRequest

/-- The `db.query(query, [item])` calls issued to the store, as
(query text, bound category parameter) pairs: the validation throw on
lines 15-19 happens before any query is built, so a malformed profile
issues none. -/
def issuedQueries (needs : Profile) : List (String × String) :=
  if requiredFields.all (fun f => (needs f).isSome) then
    categories.map (fun item => (buildQuery needs, item))
  else []

/-- A profile literal, as a JS object literal: later duplicate keys
shadow earlier ones in JS, but the literals below have no duplicates. -/
def profileOfList (l : List (String × JSVal)) : Profile :=
  fun s => (l.find? (fun kv => kv.fst == s)).map (fun kv => kv.snd)

/-! ### Concrete profiles and rows used as witnesses -/

/-- A valid profile with all twelve flags set to the number 0. -/
def profZero : Profile :=
  profileOfList [("cleanser", JSVal.num 0), ("toner", JSVal.num 0),
    ("serum", JSVal.num 0), ("moisturizer", JSVal.num 0),
    ("sunscreen", JSVal.num 0), ("oily", JSVal.num 0), ("dry", JSVal.num 0),
    ("sensitive", JSVal.num 0), ("acne_fighting", JSVal.num 0),
    ("anti_aging", JSVal.num 0), ("brightening", JSVal.num 0),
    ("uv", JSVal.num 0)]

/-- A valid profile whose only selected flag is `acne_fighting = 1`. -/
def profAcne : Profile :=
  profileOfList [("cleanser", JSVal.num 0), ("toner", JSVal.num 0),
    ("serum", JSVal.num 0), ("moisturizer", JSVal.num 0),
    ("sunscreen", JSVal.num 0), ("oily", JSVal.num 0), ("dry", JSVal.num 0),
    ("sensitive", JSVal.num 0), ("acne_fighting", JSVal.num 1),
    ("anti_aging", JSVal.num 0), ("brightening", JSVal.num 0),
    ("uv", JSVal.num 0)]

/-- The spec's concrete scenario profile: all five category flags 1,
`oily = 1` (the integer), `acne_fighting = 1`, everything else 0. -/
def profOily1 : Profile :=
  profileOfList [("cleanser", JSVal.num 1), ("toner", JSVal.num 1),
    ("serum", JSVal.num 1), ("moisturizer", JSVal.num 1),
    ("sunscreen", JSVal.num 1), ("oily", JSVal.num 1), ("dry", JSVal.num 0),
    ("sensitive", JSVal.num 0), ("acne_fighting", JSVal.num 1),
    ("anti_aging", JSVal.num 0), ("brightening", JSVal.num 0),
    ("uv", JSVal.num 0)]

/-- A valid profile whose `oily` value is the boolean `true`; no flag is
the integer 1. -/
def profOilyTrue : Profile :=
  profileOfList [("cleanser", JSVal.num 0), ("toner", JSVal.num 0),
    ("serum", JSVal.num 0), ("moisturizer", JSVal.num 0),
    ("sunscreen", JSVal.num 0), ("oily", JSVal.bool true),
    ("dry", JSVal.num 0), ("sensitive", JSVal.num 0),
    ("acne_fighting", JSVal.num 0), ("anti_aging", JSVal.num 0),
    ("brightening", JSVal.num 0), ("uv", JSVal.num 0)]

/-- A malformed profile: the key `"uv"` is absent. -/
def profNoUv : Profile :=
  profileOfList [("cleanser", JSVal.num 0), ("toner", JSVal.num 0),
    ("serum", JSVal.num 0), ("moisturizer", JSVal.num 0),
    ("sunscreen", JSVal.num 0), ("oily", JSVal.num 0), ("dry", JSVal.num 0),
    ("sensitive", JSVal.num 0), ("acne_fighting", JSVal.num 0),
    ("anti_aging", JSVal.num 0), ("brightening", JSVal.num 0)]

/-- A dry-suitable serum with safety 90 (not oily-suitable). -/
def rowA : Row := ⟨1, "serum", 90, 0, 1, 0, 1, 0, 0, 0, 1⟩

/-- An oily-suitable cleanser with safety 60. -/
def rowB : Row := ⟨2, "cleanser", 60, 1, 0, 0, 0, 1, 0, 0, 0⟩

def demoStore : List Row := [rowA, rowB]

/-- A valid profile agreeing with `profZero` except that all five
category-wanted flags are 1. -/
def profZeroCats1 : Profile :=
  profileOfList [("cleanser", JSVal.num 1), ("toner", JSVal.num 1),
    ("serum", JSVal.num 1), ("moisturizer", JSVal.num 1),
    ("sunscreen", JSVal.num 1), ("oily", JSVal.num 0), ("dry", JSVal.num 0),
    ("sensitive", JSVal.num 0), ("acne_fighting", JSVal.num 0),
    ("anti_aging", JSVal.num 0), ("brightening", JSVal.num 0),
    ("uv", JSVal.num 0)]


/-! ### Basic facts about the JS coercions -/

theorem jsEqNum_one_iff (v : JSVal) :
    jsEqNum v 1 = true ↔ v = JSVal.num 1 ∨ v = JSVal.bool true := by
  cases v with
  | num n => simp [jsEqNum]
  | bool b => cases b <;> simp [jsEqNum]
  | undef => simp [jsEqNum]
  | null => simp [jsEqNum]

/-- The line-39 comparison `chosenSkinNeeds > 0` is false for every
profile: the array coerces to a comma-joined string of quoted column
names, which is never a positive numeral (NaN when non-empty, 0 when
empty). -/
theorem jsArrayGtZero_chosen (needs : Profile) :
    jsArrayGtZero (chosenSkinNeedsQuoted needs) = false := by
  unfold chosenSkinNeedsQuoted chosenSkinNeeds skinNeedFields
  cases h1 : jsEqNum (getProp needs "acne_fighting") 1 <;>
  cases h2 : jsEqNum (getProp needs "anti_aging") 1 <;>
  cases h3 : jsEqNum (getProp needs "brightening") 1 <;>
  cases h4 : jsEqNum (getProp needs "uv") 1 <;>
    simp only [List.filter_cons, List.filter_nil, h1, h2, h3, h4,
      if_true, if_false, List.map_cons, List.map_nil] <;> decide

theorem skinNeedsQueryBase_eq_zero (needs : Profile) :
    skinNeedsQueryBase needs = "0" := by
  unfold skinNeedsQueryBase
  rw [jsArrayGtZero_chosen]
  rfl

theorem rowRanking_eq (needs : Profile) (r : Row) :
    rowRanking needs r =
      if jsEqTrue (getProp needs "oily") then r.comedogenic else 0 := by
  unfold rowRanking
  rw [jsArrayGtZero_chosen]
  simp

/-! ### Facts about the category retrieval -/

theorem runCategoryQuery_length_le (store : List Row) (needs : Profile)
    (cat : String) : (runCategoryQuery store needs cat).length ≤ 3 := by
  unfold runCategoryQuery
  simp [List.length_take]

theorem runCategoryQuery_mem (store : List Row) (needs : Profile)
    (cat : String) (r : Row) (hr : r ∈ runCategoryQuery store needs cat) :
    r.type = cat ∧ 50 ≤ r.safety ∧ rowPassesSkintype needs r = true := by
  unfold runCategoryQuery at hr
  have h1 := List.mem_of_mem_take hr
  have h2 := (List.mem_insertionSort _).mp h1
  have h3 := (List.mem_filter).mp h2
  have h4 := h3.2
  simp only [Bool.and_eq_true, beq_iff_eq, decide_eq_true_eq] at h4
  exact ⟨h4.1.1, h4.1.2, h4.2⟩

theorem runCategoryQuery_congr (store : List Row) (n1 n2 : Profile) (cat : String)
    (hrank : rowRanking n1 = rowRanking n2)
    (hpass : rowPassesSkintype n1 = rowPassesSkintype n2) :
    runCategoryQuery store n1 cat = runCategoryQuery store n2 cat := by
  unfold runCategoryQuery
  rw [hrank, hpass]

/-! ### Facts about Promise.all and the orchestration -/

theorem promiseAll_error_mem {ε α : Type} {l : List (Except ε α)} {e : ε}
    (h : promiseAll l = Except.error e) : Except.error e ∈ l := by
  induction l with
  | nil => simp [promiseAll] at h
  | cons x xs ih =>
    cases x with
    | error e2 =>
      simp [promiseAll] at h
      simp [h]
    | ok a =>
      cases hx : promiseAll xs with
      | error e2 =>
        rw [promiseAll, hx] at h
        cases h
        exact List.mem_cons_of_mem _ (ih hx)
      | ok res =>
        rw [promiseAll, hx] at h
        cases h

theorem promiseAll_ok_mem {ε α : Type} {l : List (Except ε α)} {res : List α}
    (h : promiseAll l = Except.ok res) : ∀ x ∈ l, ∃ a, x = Except.ok a := by
  induction l generalizing res with
  | nil => intro x hx; cases hx
  | cons y ys ih =>
    intro x hx
    cases y with
    | error e2 => rw [promiseAll] at h; cases h
    | ok a =>
      cases hy : promiseAll ys with
      | error e2 => rw [promiseAll, hy] at h; cases h
      | ok res2 =>
        cases hx with
        | head => exact ⟨a, rfl⟩
        | tail _ hmem => exact ih hy x hmem

theorem fetchRecommended_ok (store : List Row) (dbFails : String → Bool)
    (needs : Profile)
    (hv : requiredFields.all (fun f => (needs f).isSome) = true)
    (hdb : ∀ c ∈ categories, dbFails c = false) :
    fetchRecommended store dbFails needs =
      Except.ok (categories.map (fun c => (c, runCategoryQuery store needs c))) := by
  have h1 : dbFails "cleanser" = false := hdb _ (by decide)
  have h2 : dbFails "toner" = false := hdb _ (by decide)
  have h3 : dbFails "serum" = false := hdb _ (by decide)
  have h4 : dbFails "moisturizer" = false := hdb _ (by decide)
  have h5 : dbFails "sunscreen" = false := hdb _ (by decide)
  simp only [fetchRecommended, hv, if_true, categories, List.map_cons,
    List.map_nil, h1, h2, h3, h4, h5, Bool.false_eq_true, if_false,
    promiseAll, List.zip]
  rfl

theorem fetchRecommended_congr (store : List Row) (dbFails : String → Bool)
    (n1 n2 : Profile)
    (hv1 : requiredFields.all (fun f => (n1 f).isSome) = true)
    (hv2 : requiredFields.all (fun f => (n2 f).isSome) = true)
    (hrun : ∀ cat, runCategoryQuery store n1 cat = runCategoryQuery store n2 cat) :
    fetchRecommended store dbFails n1 = fetchRecommended store dbFails n2 := by
  unfold fetchRecommended
  rw [hv1, hv2]
  simp only [hrun]


/-! ### C1 -/

/-- C1: the claim states that with at least one functionality flag
selected the compiled base score is the sum of the corresponding
columns.  The code (line 39) compares the ARRAY `chosenSkinNeeds` to 0
instead of its `.length` (contrast line 33, which correctly uses
`.length > 0` for the skin-type clause), so the condition is always
false and the compiled base score is the constant `"0"` even for the
validated profile selecting `acne_fighting`: evaluated here at that
failing input. -/
theorem C1_ranking_base_collapses :
    requiredFields.all (fun f => (profAcne f).isSome) = true ∧
    getProp profAcne "acne_fighting" = JSVal.num 1 ∧
    chosenSkinNeeds profAcne = ["acne_fighting"] ∧
    skinNeedsQueryBase profAcne = "0" ∧
    skinNeedsQuery profAcne = "0" :=
  ⟨by decide, by decide, by decide, by decide, by decide⟩

/-! ### C2 -/

/-- C2: for every valid need-profile for which every store retrieval
succeeds, the result maps exactly the five fixed category keys, in
order, each to a list of at most 3 products whose `type` equals the
key and whose safety score is at least 50. -/
theorem C2_result_shape (store : List Row) (dbFails : String → Bool)
    (needs : Profile)
    (hv : requiredFields.all (fun f => (needs f).isSome) = true)
    (hdb : ∀ c ∈ categories, dbFails c = false) :
    ∃ l, fetchRecommended store dbFails needs = Except.ok l ∧
      l.map Prod.fst = categories ∧
      ∀ p ∈ l, p.snd.length ≤ 3 ∧
        ∀ r ∈ p.snd, r.type = p.fst ∧ 50 ≤ r.safety := by
  refine ⟨_, fetchRecommended_ok store dbFails needs hv hdb, ?_, ?_⟩
  · simp [Function.comp_def]
  · intro p hp
    rcases List.mem_map.mp hp with ⟨c, hc, rfl⟩
    exact ⟨runCategoryQuery_length_le _ _ _, fun r hr =>
      ⟨(runCategoryQuery_mem _ _ _ _ hr).1, (runCategoryQuery_mem _ _ _ _ hr).2.1⟩⟩

theorem C2_result_shape_w :
    ∃ l, fetchRecommended demoStore (fun _ => false) profZero = Except.ok l ∧
      l.map Prod.fst = categories ∧
      ∀ p ∈ l, p.snd.length ≤ 3 ∧
        ∀ r ∈ p.snd, r.type = p.fst ∧ 50 ≤ r.safety :=
  C2_result_shape demoStore (fun _ => false) profZero (by decide)
    (fun _ _ => rfl)

/-! ### C3 -/

/-- C3: a profile missing a required key makes `fetchRecommended` fail
with the validation error and issue no store query; and since only key
presence is checked, any profile with all twelve keys present (whatever
the values) never fails validation. -/
theorem C3_validation (store : List Row) (dbFails : String → Bool)
    (needs : Profile) (f : String) (hf : f ∈ requiredFields)
    (hmiss : needs f = none) :
    (fetchRecommended store dbFails needs = Except.error FetchError.badRequest ∧
      issuedQueries needs = []) ∧
    ∀ needs2 : Profile, (∀ g ∈ requiredFields, (needs2 g).isSome = true) →
      fetchRecommended store dbFails needs2 ≠ Except.error FetchError.badRequest := by
  constructor
  · have hall : requiredFields.all (fun g => (needs g).isSome) = false :=
      List.all_eq_false.mpr ⟨f, hf, by simp [hmiss]⟩
    constructor
    · simp [fetchRecommended, hall]
    · simp [issuedQueries, hall]
  · intro needs2 hv2 hbad
    have hall2 : requiredFields.all (fun g => (needs2 g).isSome) = true :=
      List.all_eq_true.mpr hv2
    rw [fetchRecommended, hall2] at hbad
    simp only [if_true] at hbad
    cases hp : promiseAll (categories.map (fun item =>
        if dbFails item then Except.error FetchError.storeError
        else Except.ok (runCategoryQuery store needs2 item))) with
    | ok results => rw [hp] at hbad; cases hbad
    | error e =>
      rw [hp] at hbad
      cases hbad
      have hmem := promiseAll_error_mem hp
      rcases List.mem_map.mp hmem with ⟨c, _, heq⟩
      by_cases hc : dbFails c = true
      · simp only [hc, if_true] at heq
        cases heq
      · simp only [Bool.not_eq_true] at hc
        simp only [hc, Bool.false_eq_true, if_false] at heq
        cases heq

theorem C3_validation_w :
    (fetchRecommended demoStore (fun _ => false) profNoUv =
        Except.error FetchError.badRequest ∧
      issuedQueries profNoUv = []) ∧
    ∀ needs2 : Profile, (∀ g ∈ requiredFields, (needs2 g).isSome = true) →
      fetchRecommended demoStore (fun _ => false) needs2 ≠
        Except.error FetchError.badRequest :=
  C3_validation demoStore (fun _ => false) profNoUv "uv" (by decide) rfl

/-! ### C4 -/

/-- C4: for a valid profile, if the store rejects any one of the five
concurrent category queries, the whole `fetchRecommended` call fails
(the `Promise.all` join rejects) and no result mapping at all is
produced. -/
theorem C4_all_or_nothing (store : List Row) (dbFails : String → Bool)
    (needs : Profile)
    (hv : requiredFields.all (fun f => (needs f).isSome) = true)
    (c : String) (hc : c ∈ categories) (hfail : dbFails c = true) :
    fetchRecommended store dbFails needs = Except.error FetchError.storeError := by
  rw [fetchRecommended, hv]
  simp only [if_true]
  have hmem : Except.error (α := List Row) FetchError.storeError ∈
      categories.map (fun item =>
        if dbFails item then Except.error FetchError.storeError
        else Except.ok (runCategoryQuery store needs item)) :=
    List.mem_map.mpr ⟨c, hc, by simp [hfail]⟩
  cases hp : promiseAll (categories.map (fun item =>
      if dbFails item then Except.error FetchError.storeError
      else Except.ok (runCategoryQuery store needs item))) with
  | ok results =>
    rcases promiseAll_ok_mem hp _ hmem with ⟨a, ha⟩
    cases ha
  | error e =>
    have hmem2 := promiseAll_error_mem hp
    rcases List.mem_map.mp hmem2 with ⟨c2, _, heq⟩
    by_cases hc2 : dbFails c2 = true
    · simp only [hc2, if_true] at heq
      cases heq
      rfl
    · simp only [Bool.not_eq_true] at hc2
      simp only [hc2, Bool.false_eq_true, if_false] at heq
      cases heq

theorem C4_all_or_nothing_w :
    fetchRecommended demoStore (fun c => c == "serum") profZero =
      Except.error FetchError.storeError :=
  C4_all_or_nothing demoStore (fun c => c == "serum") profZero (by decide)
    "serum" (by decide) rfl

/-! ### C5 -/

/-- C5 counterexample: the claim states that for a profile whose `oily`
value is the integer 1 the comedogenic column is NOT added.  Line 40
uses JS loose equality (`needs.oily == true`, and `ToNumber(true) = 1`),
so for the spec's own concrete scenario profile (`oily = 1`,
`acne_fighting = 1`) the comedogenic column IS appended — and the
ranking score is not the `acne_fighting` column either, the base having
collapsed to `0`. -/
theorem C5_strict_true_cex :
    getProp profOily1 "oily" = JSVal.num 1 ∧
    jsEqTrue (getProp profOily1 "oily") = true ∧
    skinNeedsQuery profOily1 = "0 + \"comedogenic\"" :=
  ⟨by decide, by decide, by decide⟩

/-- C5 amended: the comedogenic column is appended to the compiled
ranking expression if and only if the profile's `oily` value is loosely
equal to `true` under JS `==`, i.e. is the number 1 or the boolean
`true`; in particular `oily = 1` DOES add it. -/
theorem C5_comedogenic_loose (needs : Profile) (v : JSVal)
    (h : getProp needs "oily" = v) :
    skinNeedsQuery needs =
      skinNeedsQueryBase needs ++
        (if v = JSVal.num 1 ∨ v = JSVal.bool true then " + \"comedogenic\""
         else "") := by
  unfold skinNeedsQuery jsEqTrue
  rw [h]
  rcases v with n | b | _ | _
  · by_cases hn : n = 1 <;> simp [jsEqNum, hn]
  · cases b <;> simp [jsEqNum]
  · simp [jsEqNum]
  · simp [jsEqNum]

theorem C5_comedogenic_loose_w :
    skinNeedsQuery profOilyTrue =
      skinNeedsQueryBase profOilyTrue ++
        (if JSVal.bool true = JSVal.num 1 ∨ JSVal.bool true = JSVal.bool true
         then " + \"comedogenic\"" else "") :=
  C5_comedogenic_loose profOilyTrue (JSVal.bool true) (by decide)

/-! ### C6 -/

/-- C6 counterexample: the claim states that a skin-type flag whose
value is the boolean `true` contributes no predicate.  Line 31 uses JS
loose equality (`needs[type] == 1`, and `ToNumber(true) = 1`), so a
profile with `oily = true` DOES select the `oily` predicate. -/
theorem C6_strict_one_cex :
    getProp profOilyTrue "oily" = JSVal.bool true ∧
    chosenSkintypes profOilyTrue = ["oily"] ∧
    skintypeQuery profOilyTrue = "AND (\"oily\" = 1)" :=
  ⟨by decide, by decide, by decide⟩

/-- C6 amended: a skin-type flag contributes its equality predicate to
the compiled skin-type clause if and only if its value is loosely equal
to 1 under JS `==`, i.e. is the number 1 or the boolean `true`. -/
theorem C6_skintype_loose (needs : Profile) (t : String)
    (ht : t ∈ skintypeFields) :
    t ∈ chosenSkintypes needs ↔
      (getProp needs t = JSVal.num 1 ∨ getProp needs t = JSVal.bool true) := by
  unfold chosenSkintypes
  rw [List.mem_filter]
  simp [ht, jsEqNum_one_iff]

theorem C6_skintype_loose_w :
    "oily" ∈ chosenSkintypes profOily1 ↔
      (getProp profOily1 "oily" = JSVal.num 1 ∨
        getProp profOily1 "oily" = JSVal.bool true) :=
  C6_skintype_loose profOily1 "oily" (by decide)

/-! ### C7 -/

/-- C7 counterexample: the claim states that when no skin-type flag is
set to (the integer) 1, no skin-type restriction is applied.  For the
valid profile with `oily = true` (boolean) no flag equals the integer 1,
yet the compiled clause restricts to `oily = 1` and excludes a
safety-qualifying serum of the right category. -/
theorem C7_strict_cex :
    (∀ t ∈ skintypeFields, getProp profOilyTrue t ≠ JSVal.num 1) ∧
    rowA.type = "serum" ∧ (50 : Int) ≤ rowA.safety ∧
    runCategoryQuery [rowA] profOilyTrue "serum" = [] :=
  ⟨by decide, by decide, by decide, by decide⟩

/-- C7 amended: with "flag equal to 1" read as the code's JS loose
comparison (number 1 or boolean `true`): when no skin-type flag is
selected, the compiled clause is vacuous and restricts nothing; when at
least one is selected, every product returned for any category
satisfies at least one of the selected suitability columns. -/
theorem C7_skintype_filter (store : List Row) (needs : Profile) (cat : String) :
    (chosenSkintypes needs = [] → ∀ r : Row, rowPassesSkintype needs r = true) ∧
    (chosenSkintypes needs ≠ [] → ∀ r ∈ runCategoryQuery store needs cat,
      ∃ t ∈ chosenSkintypes needs, flagCol r t = 1) := by
  constructor
  · intro h r
    unfold rowPassesSkintype
    rw [h]
    rfl
  · intro hne r hr
    have hp := (runCategoryQuery_mem store needs cat r hr).2.2
    unfold rowPassesSkintype at hp
    rcases (Bool.or_eq_true _ _).mp hp with hemp | hany
    · exact absurd (List.isEmpty_iff.mp hemp) hne
    · rcases List.any_eq_true.mp hany with ⟨t, ht, hbeq⟩
      exact ⟨t, ht, by simpa using hbeq⟩

theorem C7_skintype_filter_w :
    rowPassesSkintype profZero rowA = true ∧
    ∃ t ∈ chosenSkintypes profOily1, flagCol rowB t = 1 :=
  ⟨(C7_skintype_filter [rowA] profZero "serum").1 (by decide) rowA,
    (C7_skintype_filter [rowB] profOily1 "cleanser").2 (by decide) rowB
      (by decide)⟩

/-! ### C8 -/

/-- C8: within each category the returned list is ordered by
non-decreasing computed ranking score (the generated
`ORDER BY "ranking"` is ascending; ties in arbitrary order). -/
theorem C8_ranking_sorted (store : List Row) (needs : Profile) (cat : String) :
    List.Sorted (fun a b => rowRanking needs a ≤ rowRanking needs b)
      (runCategoryQuery store needs cat) := by
  haveI ht : IsTotal Row (fun a b => rowRanking needs a ≤ rowRanking needs b) :=
    ⟨fun a b => le_total _ _⟩
  haveI htr : IsTrans Row (fun a b => rowRanking needs a ≤ rowRanking needs b) :=
    ⟨fun _ _ _ hab hbc => le_trans hab hbc⟩
  unfold runCategoryQuery
  exact List.Pairwise.sublist (List.take_sublist 3 _)
    (List.sorted_insertionSort _ _)

theorem C8_ranking_sorted_w :
    List.Sorted (fun a b => rowRanking profZero a ≤ rowRanking profZero b)
      (runCategoryQuery demoStore profZero "serum") :=
  C8_ranking_sorted demoStore profZero "serum"

/-! ### C9 -/

/-- C9: two valid profiles that agree on the three skin-type and four
functionality flags but differ arbitrarily in the five category-wanted
flags issue the same five store queries and return the same result:
the category flags are validated for presence but never consulted. -/
theorem C9_category_flags_unused (store : List Row) (dbFails : String → Bool)
    (n1 n2 : Profile)
    (hv1 : requiredFields.all (fun f => (n1 f).isSome) = true)
    (hv2 : requiredFields.all (fun f => (n2 f).isSome) = true)
    (hagree : ∀ f ∈ skintypeFields ++ skinNeedFields, getProp n1 f = getProp n2 f) :
    issuedQueries n1 = issuedQueries n2 ∧
      fetchRecommended store dbFails n1 = fetchRecommended store dbFails n2 := by
  have hOily : getProp n1 "oily" = getProp n2 "oily" := hagree _ (by decide)
  have hDry : getProp n1 "dry" = getProp n2 "dry" := hagree _ (by decide)
  have hSen : getProp n1 "sensitive" = getProp n2 "sensitive" := hagree _ (by decide)
  have hAc : getProp n1 "acne_fighting" = getProp n2 "acne_fighting" :=
    hagree _ (by decide)
  have hAn : getProp n1 "anti_aging" = getProp n2 "anti_aging" := hagree _ (by decide)
  have hBr : getProp n1 "brightening" = getProp n2 "brightening" := hagree _ (by decide)
  have hUv : getProp n1 "uv" = getProp n2 "uv" := hagree _ (by decide)
  have hskin : chosenSkintypes n1 = chosenSkintypes n2 := by
    unfold chosenSkintypes skintypeFields
    simp only [List.filter_cons, List.filter_nil, hOily, hDry, hSen]
  have hneeds : chosenSkinNeeds n1 = chosenSkinNeeds n2 := by
    unfold chosenSkinNeeds skinNeedFields
    simp only [List.filter_cons, List.filter_nil, hAc, hAn, hBr, hUv]
  have hrank : rowRanking n1 = rowRanking n2 := funext fun r => by
    unfold rowRanking chosenSkinNeedsQuoted
    rw [hneeds, hOily]
  have hpass : rowPassesSkintype n1 = rowPassesSkintype n2 := funext fun r => by
    unfold rowPassesSkintype
    rw [hskin]
  have hbuild : buildQuery n1 = buildQuery n2 := by
    unfold buildQuery skinNeedsQuery skinNeedsQueryBase skintypeQuery
      skintypeQueryMap chosenSkinNeedsQuoted jsEqTrue
    rw [hneeds, hskin, hOily]
  constructor
  · unfold issuedQueries
    rw [hv1, hv2, hbuild]
  · exact fetchRecommended_congr store dbFails n1 n2 hv1 hv2
      (fun cat => runCategoryQuery_congr store n1 n2 cat hrank hpass)

theorem C9_category_flags_unused_w :
    issuedQueries profZero = issuedQueries profZeroCats1 ∧
      fetchRecommended demoStore (fun _ => false) profZero =
        fetchRecommended demoStore (fun _ => false) profZeroCats1 :=
  C9_category_flags_unused demoStore (fun _ => false) profZero profZeroCats1
    (by decide) (by decide) (by decide)

/-! ### C10 -/

/-- C10: two valid profiles that agree on the three skin-type and five
category flags but differ arbitrarily in the four functionality-need
flags build character-for-character identical query text and, over the
same store, return identical results: because the line-39 array
comparison is always false, the functionality flags never reach the
compiled ranking expression or the output. -/
theorem C10_functionality_flags_unused (store : List Row)
    (dbFails : String → Bool) (n1 n2 : Profile)
    (hv1 : requiredFields.all (fun f => (n1 f).isSome) = true)
    (hv2 : requiredFields.all (fun f => (n2 f).isSome) = true)
    (hagree : ∀ f ∈ skintypeFields ++ categories, getProp n1 f = getProp n2 f) :
    buildQuery n1 = buildQuery n2 ∧
      fetchRecommended store dbFails n1 = fetchRecommended store dbFails n2 := by
  have hOily : getProp n1 "oily" = getProp n2 "oily" := hagree _ (by decide)
  have hDry : getProp n1 "dry" = getProp n2 "dry" := hagree _ (by decide)
  have hSen : getProp n1 "sensitive" = getProp n2 "sensitive" := hagree _ (by decide)
  have hskin : chosenSkintypes n1 = chosenSkintypes n2 := by
    unfold chosenSkintypes skintypeFields
    simp only [List.filter_cons, List.filter_nil, hOily, hDry, hSen]
  have hrank : rowRanking n1 = rowRanking n2 := funext fun r => by
    rw [rowRanking_eq, rowRanking_eq, hOily]
  have hpass : rowPassesSkintype n1 = rowPassesSkintype n2 := funext fun r => by
    unfold rowPassesSkintype
    rw [hskin]
  constructor
  · unfold buildQuery skinNeedsQuery skintypeQuery skintypeQueryMap jsEqTrue
    rw [skinNeedsQueryBase_eq_zero, skinNeedsQueryBase_eq_zero, hskin, hOily]
  · exact fetchRecommended_congr store dbFails n1 n2 hv1 hv2
      (fun cat => runCategoryQuery_congr store n1 n2 cat hrank hpass)

theorem C10_functionality_flags_unused_w :
    buildQuery profZero = buildQuery profAcne ∧
      fetchRecommended demoStore (fun _ => false) profZero =
        fetchRecommended demoStore (fun _ => false) profAcne :=
  C10_functionality_flags_unused demoStore (fun _ => false) profZero profAcne
    (by decide) (by decide) (by decide)
